import Mathlib

/-!
Shallow embedding of the Kenyan nutrition agent's deterministic core
(src/sub_agents/patient_profiles/agent.py, src/sub_agents/regions_for_food/agent.py,
src/sub_agents/food_recommendations/agent.py) and proofs of the spec's claims.

Python floats are modelled as exact rationals (ℚ), Python ints as ℤ, Python
dicts with fixed key sets as structures, and the untrusted output of the
external generative service as `Option`-valued candidate records (`none`
models "the external call failed, raised, or returned unparseable text",
which the source catches and turns into the rule-based fallback).
-/

namespace KenyanNutrition

/-! ## Python numeric primitives -/

/-- Python `int(x)` applied to a float: truncation toward zero. -/
def py_int (q : ℚ) : ℤ :=
  if 0 ≤ q then ⌊q⌋ else ⌈q⌉

/-- Python `round(x, 2)`: round to 2 decimal places, ties to even
(banker's rounding), modelled on exact rationals. -/
def py_round2 (q : ℚ) : ℚ :=
  let s := q * 100
  let f : ℤ := ⌊s⌋
  let r : ℚ := s - (f : ℚ)
  let n : ℤ :=
    if r < 1/2 then f
    else if 1/2 < r then f + 1
    else if f % 2 = 0 then f else f + 1
  (n : ℚ) / 100

/-! ## Patient profile data model (src/sub_agents/patient_profiles/agent.py) -/

/-- The `blood_pressure` dict: {"systolic": int, "diastolic": int}. -/
structure BloodPressure where
  systolic : ℤ
  diastolic : ℤ
deriving DecidableEq

/-- The `dietary_restrictions` dict of five booleans. -/
structure Restrictions where
  limit_sugar : Bool
  limit_sodium : Bool
  portion_control : Bool
  increase_fiber : Bool
  limit_saturated_fat : Bool
deriving DecidableEq

/-- The raw `patient_data` dict assembled in `create_patient_profile`. -/
structure PatientData where
  age : ℤ
  weight : ℚ
  height : ℚ
  blood_sugar : ℚ
  blood_pressure : BloodPressure
  diabetes_status : String
  location : String
deriving DecidableEq

/-- The profile dict returned by `create_patient_profile`. -/
structure Profile where
  age : ℤ
  weight : ℚ
  height : ℚ
  bmi : ℚ
  blood_sugar : ℚ
  blood_pressure : BloodPressure
  diabetes_status : String
  location : String
  health_category : String
  dietary_restrictions : Restrictions
  calorie_needs : ℤ
  analysis_reasoning : String
deriving DecidableEq

/-- The profile dict parsed from the external generative model's JSON answer,
before `_validate_profile` repairs it.  `health_category := none` models a
missing key (Python `profile.get` returns `None`); `calorie_needs := none`
models a missing key or a non-`int` value (the source guards with
`isinstance(profile.get('calorie_needs'), int)`). -/
structure ExtProfile where
  age : ℤ
  weight : ℚ
  height : ℚ
  bmi : ℚ
  blood_sugar : ℚ
  blood_pressure : BloodPressure
  diabetes_status : String
  location : String
  health_category : Option String
  dietary_restrictions : Restrictions
  calorie_needs : Option ℤ
  analysis_reasoning : String
deriving DecidableEq

/-- The Python exceptions that can escape `create_patient_profile`.
`invalidInputError` is the error class named by the spec's §7 taxonomy; the
source never raises it (it appears here only so the spec's claim is statable). -/
inductive PErr where
  | zeroDivisionError
  | invalidInputError
deriving DecidableEq

/-! ## Patient profile operations -/

/-- `calculate_bmi` (agent.py:162-164): `round(weight / (height ** 2), 2)`. -/
def calculate_bmi (weight height : ℚ) : ℚ :=
  py_round2 (weight / height ^ 2)

/-- The `risk_factors` list built by `categorize_health_status`
(agent.py:166-189): four independent if/elif appends. -/
def risk_factors (bmi blood_sugar : ℚ) (bp : BloodPressure) (diabetes_status : String) :
    List String :=
  (if bmi ≥ 30 then ["obesity"]
   else if bmi ≥ 25 then ["overweight"] else []) ++
  (if blood_sugar > 126 then ["high_blood_sugar"]
   else if blood_sugar > 100 then ["elevated_blood_sugar"] else []) ++
  (if bp.systolic ≥ 140 ∨ bp.diastolic ≥ 90 then ["hypertension"]
   else if bp.systolic ≥ 130 ∨ bp.diastolic ≥ 80 then ["elevated_bp"] else []) ++
  (if diabetes_status = "type1" ∨ diabetes_status = "type2" then ["diabetes"]
   else if diabetes_status = "prediabetes" then ["prediabetes"] else [])

/-- `categorize_health_status` (agent.py:166-196).  The `age` argument is
accepted and ignored exactly as in the source. -/
def categorize_health_status (_age : ℤ) (bmi blood_sugar : ℚ) (bp : BloodPressure)
    (diabetes_status : String) : String :=
  let rf := risk_factors bmi blood_sugar bp diabetes_status
  if rf.length ≥ 3 then "high_risk"
  else if rf.length ≥ 1 then "moderate_risk"
  else "low_risk"

/-- `get_dietary_restrictions` (agent.py:198-207). -/
def get_dietary_restrictions (diabetes_status health_category : String) : Restrictions :=
  { limit_sugar := (["type1", "type2", "prediabetes"] : List String).contains diabetes_status
    limit_sodium := (["high_risk", "moderate_risk"] : List String).contains health_category
    portion_control := (["high_risk", "moderate_risk"] : List String).contains health_category
    increase_fiber := (["type2", "prediabetes"] : List String).contains diabetes_status
    limit_saturated_fat := (["high_risk", "moderate_risk"] : List String).contains health_category }

/-- `calculate_calorie_needs` (agent.py:209-212): Mifflin-St Jeor BMR times a
fixed 1.55 activity multiplier, truncated by Python `int()`.  Note: the source
applies no clamp to this value. -/
def calculate_calorie_needs (age : ℤ) (weight height : ℚ) : ℤ :=
  let bmr : ℚ := 10 * weight + 6.25 * (height * 100) - 5 * (age : ℚ) + 5
  py_int (bmr * 1.55)

/-- `_validate_profile` (agent.py:114-134): recompute `bmi` unconditionally,
recompute `health_category` when the candidate's value is not one of the three
valid strings, and replace `calorie_needs` by the rule-based fallback when the
candidate's value is not an `int` in [800, 4000].  All other keys pass through
from the external candidate dict, which the source mutates and returns. -/
def validate_profile (ext : ExtProfile) (d : PatientData) : Profile :=
  let bmi : ℚ := d.weight / d.height ^ 2
  let health_category :=
    match ext.health_category with
    | some c =>
        if (["low_risk", "moderate_risk", "high_risk"] : List String).contains c then c
        else categorize_health_status d.age bmi d.blood_sugar d.blood_pressure d.diabetes_status
    | none => categorize_health_status d.age bmi d.blood_sugar d.blood_pressure d.diabetes_status
  let calorie_needs :=
    match ext.calorie_needs with
    | some c =>
        if 800 ≤ c ∧ c ≤ 4000 then c
        else calculate_calorie_needs d.age d.weight d.height
    | none => calculate_calorie_needs d.age d.weight d.height
  { age := ext.age
    weight := ext.weight
    height := ext.height
    bmi := py_round2 bmi
    blood_sugar := ext.blood_sugar
    blood_pressure := ext.blood_pressure
    diabetes_status := ext.diabetes_status
    location := ext.location
    health_category := health_category
    dietary_restrictions := ext.dietary_restrictions
    calorie_needs := calorie_needs
    analysis_reasoning := ext.analysis_reasoning }

/-- `_fallback_profile_creation` (agent.py:136-159): the rule-based profile. -/
def fallback_profile_creation (d : PatientData) : Profile :=
  let bmi := calculate_bmi d.weight d.height
  let health_category :=
    categorize_health_status d.age bmi d.blood_sugar d.blood_pressure d.diabetes_status
  { age := d.age
    weight := d.weight
    height := d.height
    bmi := bmi
    blood_sugar := d.blood_sugar
    blood_pressure := d.blood_pressure
    diabetes_status := d.diabetes_status
    location := d.location
    health_category := health_category
    dietary_restrictions := get_dietary_restrictions d.diabetes_status health_category
    calorie_needs := calculate_calorie_needs d.age d.weight d.height
    analysis_reasoning := "Generated using rule-based fallback method" }

/-- `create_patient_profile` (agent.py:26-112).  `candidate` is the external
model's parsed answer; `none` models a failed call or unparseable text.  The
source performs no vitals validation at all: when `height = 0` the division in
`_validate_profile` (or in the model-failure branch, in `calculate_bmi` within
`_fallback_profile_creation`) raises `ZeroDivisionError`; the one inside the
`try` block is caught and routed to the fallback, whose own division then
raises uncaught.  Every other input produces a profile. -/
def create_patient_profile (candidate : Option ExtProfile) (d : PatientData) :
    Except PErr Profile :=
  if d.height = 0 then .error .zeroDivisionError
  else
    match candidate with
    | some ext => .ok (validate_profile ext d)
    | none => .ok (fallback_profile_creation d)

/-! ## Regional food catalog and nutrition lookup
(src/sub_agents/regions_for_food/agent.py) -/

/-- One value of the `nutrition_db` dict (agent.py:171-252). -/
structure NutritionRecord where
  calories_per_100g : ℚ
  carbs : ℚ
  protein : ℚ
  fat : ℚ
  fiber : ℚ
  gi : ℚ
deriving DecidableEq

set_option maxHeartbeats 1600000 in
/-- The `nutrition_db` dict of `_get_local_nutrition_data` (agent.py:171-252). -/
def nutrition_db : List (String × NutritionRecord) := [
  ("maize", ⟨365, 74, 9, 4.7, 7.3, 60⟩),
  ("rice", ⟨365, 80, 7, 0.7, 1.3, 73⟩),
  ("millet", ⟨378, 73, 11, 4.2, 8.5, 71⟩),
  ("wheat", ⟨340, 72, 13, 2.5, 12.2, 30⟩),
  ("barley", ⟨354, 73, 12, 2.3, 17.3, 25⟩),
  ("sorghum", ⟨339, 75, 11, 3.3, 6.3, 62⟩),
  ("finger_millet", ⟨336, 72, 7.3, 1.3, 3.6, 104⟩),
  ("pearl_millet", ⟨361, 67, 11, 5, 8.5, 67⟩),
  ("cassava", ⟨160, 38, 1.4, 0.3, 1.8, 46⟩),
  ("oats", ⟨389, 66, 17, 7, 10.6, 55⟩),
  ("kale", ⟨35, 4.4, 2.9, 0.4, 4.1, 15⟩),
  ("spinach", ⟨23, 3.6, 2.9, 0.4, 2.2, 15⟩),
  ("sweet_potatoes", ⟨86, 20, 1.6, 0.1, 3, 70⟩),
  ("cabbage", ⟨25, 6, 1.3, 0.1, 2.5, 10⟩),
  ("carrots", ⟨41, 10, 0.9, 0.2, 2.8, 47⟩),
  ("onions", ⟨40, 9, 1.1, 0.1, 1.7, 15⟩),
  ("tomatoes", ⟨18, 3.9, 0.9, 0.2, 1.2, 15⟩),
  ("irish_potatoes", ⟨77, 17, 2, 0.1, 2.2, 78⟩),
  ("potatoes", ⟨77, 17, 2, 0.1, 2.2, 78⟩),
  ("beans_leaves", ⟨45, 9, 4.2, 0.5, 4.8, 15⟩),
  ("okra", ⟨33, 7, 1.9, 0.2, 3.2, 20⟩),
  ("eggplant", ⟨25, 6, 1, 0.2, 3, 15⟩),
  ("amaranth", ⟨23, 4.6, 2.5, 0.3, 2.1, 15⟩),
  ("cassava_leaves", ⟨37, 7, 3.7, 0.6, 3.7, 15⟩),
  ("pumpkin_leaves", ⟨19, 3.9, 3, 0.2, 2.2, 15⟩),
  ("pumpkin", ⟨26, 7, 1, 0.1, 0.5, 75⟩),
  ("spider_plant", ⟨30, 5.5, 3.5, 0.4, 3.2, 15⟩),
  ("nightshade", ⟨28, 5.8, 2.5, 0.3, 2.8, 15⟩),
  ("bananas", ⟨89, 23, 1.1, 0.3, 2.6, 62⟩),
  ("mangoes", ⟨60, 15, 0.8, 0.4, 1.6, 51⟩),
  ("avocados", ⟨160, 9, 2, 15, 7, 15⟩),
  ("oranges", ⟨47, 12, 0.9, 0.1, 2.4, 45⟩),
  ("passion_fruit", ⟨97, 23, 2.2, 0.7, 10.4, 30⟩),
  ("tree_tomatoes", ⟨31, 6, 2, 0.4, 3.3, 25⟩),
  ("macadamia", ⟨718, 14, 8, 76, 8.6, 15⟩),
  ("coconut", ⟨354, 15, 3.3, 33, 9, 45⟩),
  ("jackfruit", ⟨95, 23, 1.7, 0.6, 1.5, 75⟩),
  ("baobab_fruit", ⟨162, 38, 2.3, 0.2, 44.5, 35⟩),
  ("cashew_fruit", ⟨46, 10, 0.8, 0.5, 1.7, 25⟩),
  ("tamarind", ⟨239, 63, 2.8, 0.6, 5.1, 23⟩),
  ("sugarcane", ⟨58, 13, 0.4, 0.5, 0.6, 43⟩),
  ("pineapples", ⟨50, 13, 0.5, 0.1, 1.4, 66⟩),
  ("guavas", ⟨68, 14, 2.6, 1, 5.4, 12⟩),
  ("dates", ⟨282, 75, 2.5, 0.4, 8, 55⟩),
  ("watermelon", ⟨30, 8, 0.6, 0.2, 0.4, 72⟩),
  ("doum_palm", ⟨120, 30, 1.5, 0.5, 4.2, 45⟩),
  ("apples", ⟨52, 14, 0.3, 0.2, 2.4, 36⟩),
  ("strawberries", ⟨32, 8, 0.7, 0.3, 2, 40⟩),
  ("beans", ⟨245, 45, 15, 1, 15, 29⟩),
  ("groundnuts", ⟨567, 16, 26, 49, 8.5, 14⟩),
  ("peas", ⟨81, 14, 5, 0.4, 5.7, 22⟩),
  ("green_grams", ⟨347, 63, 24, 1.2, 16.3, 25⟩),
  ("cowpeas", ⟨336, 60, 24, 1.3, 10.6, 33⟩),
  ("pigeon_peas", ⟨343, 63, 22, 1.5, 15, 22⟩),
  ("bambara_nuts", ⟨367, 57, 19, 6.5, 5.6, 30⟩),
  ("soya_beans", ⟨446, 30, 36, 20, 9.3, 25⟩),
  ("black_eyed_peas", ⟨336, 60, 24, 1.3, 10.6, 33⟩),
  ("chicken", ⟨165, 0, 31, 3.6, 0, 0⟩),
  ("fish", ⟨206, 0, 22, 12, 0, 0⟩),
  ("eggs", ⟨155, 1.1, 13, 11, 0, 0⟩),
  ("beef", ⟨250, 0, 26, 17, 0, 0⟩),
  ("goat_meat", ⟨143, 0, 27, 3, 0, 0⟩),
  ("camel_meat", ⟨217, 0, 19, 16, 0, 0⟩),
  ("lamb", ⟨294, 0, 25, 21, 0, 0⟩),
  ("milk", ⟨61, 4.8, 3.2, 3.3, 0, 15⟩),
  ("camel_milk", ⟨46, 4.4, 3, 2.4, 0, 15⟩),
  ("coconut_milk", ⟨230, 6, 2.3, 24, 2.2, 25⟩),
  ("dairy_products", ⟨113, 4.7, 3.4, 9, 0, 15⟩),
  ("seafood", ⟨85, 0, 18, 1.2, 0, 0⟩),
  ("prawns", ⟨71, 0.9, 13, 1.4, 0, 0⟩),
  ("crabs", ⟨97, 0, 20, 1.5, 0, 0⟩),
  ("tilapia", ⟨129, 0, 26, 2.6, 0, 0⟩)
]

/-- `_get_local_nutrition_data` (agent.py:169-254): `nutrition_db.get(food_item, {})`,
with `none` standing for the empty dict returned on a miss. -/
def get_local_nutrition_data (food_item : String) : Option NutritionRecord :=
  nutrition_db.lookup food_item

/-- `_default_nutrition_fallback` (agent.py:256-258). -/
def default_nutrition_fallback : NutritionRecord :=
  ⟨0, 0, 0, 0, 0, 50⟩

/-- `get_nutritional_info` (agent.py:76-122) on its deterministic path: with the
external generative service absent (its call raising), the source returns
`local_nutrition if local_nutrition else self._default_nutrition_fallback()`;
when the service answers, the merge `{**ai_nutrition, **local_nutrition}` still
gives every locally known food its local record, so for the foods the
recommendation logic consults this is the data actually used. -/
def get_nutritional_info (food_item : String) : NutritionRecord :=
  (get_local_nutrition_data food_item).getD default_nutrition_fallback

/-- One region's entry of the `regional_foods` database: the five fixed
categories (agent.py:260-312). -/
structure RegionalFoods where
  grains : List String
  vegetables : List String
  fruits : List String
  legumes : List String
  proteins : List String
deriving DecidableEq

/-- The seven region entries of `_initialize_regional_foods` (agent.py:260-312). -/
def central_foods : RegionalFoods where
  grains := ["maize", "wheat", "barley", "millet", "rice"]
  vegetables := ["kale", "spinach", "cabbage", "carrots", "onions", "tomatoes", "sweet_potatoes", "irish_potatoes", "potatoes", "beans_leaves"]
  fruits := ["bananas", "oranges", "mangoes", "avocados", "passion_fruit", "tree_tomatoes", "macadamia"]
  legumes := ["beans", "peas", "groundnuts", "green_grams"]
  proteins := ["chicken", "beef", "goat_meat", "fish", "eggs", "milk", "dairy_products"]

def coastal_foods : RegionalFoods where
  grains := ["rice", "maize", "cassava", "millet", "sorghum"]
  vegetables := ["coconut", "okra", "eggplant", "amaranth", "sweet_potatoes", "cassava_leaves", "pumpkin_leaves", "spinach"]
  fruits := ["coconut", "mangoes", "jackfruit", "baobab_fruit", "oranges", "bananas", "cashew_fruit", "tamarind"]
  legumes := ["cowpeas", "pigeon_peas", "green_grams", "bambara_nuts"]
  proteins := ["fish", "seafood", "prawns", "crabs", "chicken", "goat_meat", "coconut_milk"]

def western_foods : RegionalFoods where
  grains := ["maize", "millet", "sorghum", "finger_millet", "rice"]
  vegetables := ["kale", "spinach", "pumpkin", "sweet_potatoes", "irish_potatoes", "onions", "tomatoes", "cabbage"]
  fruits := ["bananas", "sugarcane", "pineapples", "passion_fruit", "oranges", "mangoes", "guavas"]
  legumes := ["beans", "groundnuts", "soya_beans", "cowpeas"]
  proteins := ["fish", "chicken", "beef", "milk", "eggs", "tilapia"]

def northern_foods : RegionalFoods where
  grains := ["sorghum", "millet", "maize", "pearl_millet"]
  vegetables := ["kale", "onions", "tomatoes", "sweet_potatoes", "pumpkin", "amaranth"]
  fruits := ["dates", "mangoes", "watermelon", "doum_palm"]
  legumes := ["cowpeas", "pigeon_peas", "black_eyed_peas"]
  proteins := ["goat_meat", "camel_meat", "beef", "milk", "camel_milk"]

def eastern_foods : RegionalFoods where
  grains := ["maize", "millet", "sorghum", "finger_millet"]
  vegetables := ["kale", "spinach", "pumpkin", "sweet_potatoes", "cassava", "onions", "tomatoes"]
  fruits := ["mangoes", "oranges", "bananas", "watermelon", "baobab_fruit", "passion_fruit"]
  legumes := ["cowpeas", "green_grams", "pigeon_peas", "beans"]
  proteins := ["goat_meat", "beef", "chicken", "milk", "eggs"]

def nyanza_foods : RegionalFoods where
  grains := ["maize", "millet", "sorghum", "finger_millet", "rice"]
  vegetables := ["kale", "spinach", "sweet_potatoes", "pumpkin", "amaranth", "spider_plant", "nightshade"]
  fruits := ["bananas", "oranges", "mangoes", "sugarcane", "passion_fruit", "guavas"]
  legumes := ["beans", "groundnuts", "soya_beans", "cowpeas", "green_grams"]
  proteins := ["fish", "tilapia", "chicken", "beef", "milk", "eggs"]

def rift_valley_foods : RegionalFoods where
  grains := ["maize", "wheat", "barley", "millet", "oats"]
  vegetables := ["kale", "cabbage", "carrots", "onions", "irish_potatoes", "sweet_potatoes", "spinach"]
  fruits := ["bananas", "oranges", "mangoes", "apples", "passion_fruit", "strawberries"]
  legumes := ["beans", "peas", "groundnuts", "green_grams"]
  proteins := ["beef", "lamb", "chicken", "milk", "eggs", "dairy_products"]

def regional_foods_db : List (String × RegionalFoods) := [
  ("central", central_foods),
  ("coastal", coastal_foods),
  ("western", western_foods),
  ("northern", northern_foods),
  ("eastern", eastern_foods),
  ("nyanza", nyanza_foods),
  ("rift_valley", rift_valley_foods)
]

/-- The `region_mapping` alias table of `_get_regional_foods_fallback`
(agent.py:143-159). -/
def region_mapping : List (String × String) := [
  ("nairobi", "central"),
  ("kiambu", "central"),
  ("murang'a", "central"),
  ("nyeri", "central"),
  ("kirinyaga", "central"),
  ("nyandarua", "central"),
  ("meru", "central"),
  ("tharaka-nithi", "central"),
  ("mombasa", "coastal"),
  ("kilifi", "coastal"),
  ("kwale", "coastal"),
  ("lamu", "coastal"),
  ("tana river", "coastal"),
  ("taita-taveta", "coastal"),
  ("kisumu", "western"),
  ("kakamega", "western"),
  ("bungoma", "western"),
  ("vihiga", "western"),
  ("siaya", "western"),
  ("busia", "western"),
  ("trans-nzoia", "western"),
  ("machakos", "eastern"),
  ("kitui", "eastern"),
  ("makueni", "eastern"),
  ("embu", "eastern"),
  ("isiolo", "eastern"),
  ("marsabit", "eastern"),
  ("moyale", "eastern"),
  ("garissa", "northern"),
  ("mandera", "northern"),
  ("wajir", "northern"),
  ("turkana", "northern"),
  ("west pokot", "northern"),
  ("samburu", "northern"),
  ("kisii", "nyanza"),
  ("nyamira", "nyanza"),
  ("homa bay", "nyanza"),
  ("migori", "nyanza"),
  ("kericho", "nyanza"),
  ("bomet", "nyanza"),
  ("nakuru", "rift_valley"),
  ("eldoret", "rift_valley"),
  ("narok", "rift_valley"),
  ("kajiado", "rift_valley"),
  ("laikipia", "rift_valley"),
  ("nandi", "rift_valley"),
  ("uasin gishu", "rift_valley"),
  ("elgeyo-marakwet", "rift_valley"),
  ("baringo", "rift_valley")
]

/-- The region id `_get_regional_foods_fallback` (agent.py:139-167) ends up
using: the lower-cased location through the alias table (falling back to the
lower-cased location itself), then "central" when that is not a key of the
regional database. -/
def resolve_region (location : String) : String :=
  let location_lower := location.toLower
  let region := (region_mapping.lookup location_lower).getD location_lower
  if (regional_foods_db.lookup region).isSome then region else "central"

/-- `_get_regional_foods_fallback` (agent.py:139-167). -/
def get_regional_foods_fallback (location : String) : RegionalFoods :=
  let location_lower := location.toLower
  let region := (region_mapping.lookup location_lower).getD location_lower
  match regional_foods_db.lookup region with
  | some foods => foods
  | none => central_foods

/-! ## Recommendation data model (src/sub_agents/food_recommendations/agent.py) -/

/-- The breakfast slot of a meal plan: its four fixed category lists. -/
structure BreakfastSlot where
  grains : List String
  proteins : List String
  vegetables : List String
  fruits : List String
deriving DecidableEq

/-- The lunch slot of a meal plan. -/
structure LunchSlot where
  grains : List String
  proteins : List String
  vegetables : List String
  legumes : List String
deriving DecidableEq

/-- The dinner slot of a meal plan. -/
structure DinnerSlot where
  grains : List String
  proteins : List String
  vegetables : List String
deriving DecidableEq

/-- The snacks slot of a meal plan. -/
structure SnacksSlot where
  fruits : List String
  nuts : List String
deriving DecidableEq

/-- The `meal_plan` dict with its four fixed meals (the schema of the source's
prompt and of `_create_meal_plan`, agent.py:166-171). -/
structure MealPlan where
  breakfast : BreakfastSlot
  lunch : LunchSlot
  dinner : DinnerSlot
  snacks : SnacksSlot
deriving DecidableEq

/-- The `preferred_foods` dict (agent.py:212-217). -/
structure PreferredFoods where
  high_fiber : List String
  low_sodium : List String
  lean_proteins : List String
  complex_carbs : List String
deriving DecidableEq

/-- The `foods_to_limit` dict (agent.py:239-243). -/
structure FoodsToLimit where
  high_gi_foods : List String
  high_sodium_foods : List String
  high_fat_foods : List String
deriving DecidableEq

/-- The `portion_guidelines` dict (agent.py:259-265). -/
structure PortionGuidelines where
  grains : String
  vegetables : String
  fruits : String
  proteins : String
  legumes : String
deriving DecidableEq

/-- The `meal_timing` dict (agent.py:276-289). -/
structure MealTiming where
  frequency : String
  timing : String
  breakfast : String
  dinner : String
deriving DecidableEq

/-- The recommendation dict returned by `generate_recommendations`.  The two
trailing strings are `Option`s because the validated path returns whatever the
external candidate carried for those keys (possibly nothing), while the
fallback always sets them. -/
structure Recommendation where
  meal_plan : MealPlan
  preferred_foods : PreferredFoods
  foods_to_limit : FoodsToLimit
  portion_guidelines : PortionGuidelines
  meal_timing : MealTiming
  cultural_adaptations : Option String
  health_rationale : Option String
deriving DecidableEq

/-- The `meal_plan` sub-dict of an external candidate: any of the four
required meals may be missing. -/
structure CandMealPlan where
  breakfast : Option BreakfastSlot
  lunch : Option LunchSlot
  dinner : Option DinnerSlot
  snacks : Option SnacksSlot
deriving DecidableEq

/-- The parsed JSON answer of the external generative service: any of the five
required sections may be missing (`_validate_recommendations` substitutes for
those). -/
structure RecCandidate where
  meal_plan : Option CandMealPlan
  preferred_foods : Option PreferredFoods
  foods_to_limit : Option FoodsToLimit
  portion_guidelines : Option PortionGuidelines
  meal_timing : Option MealTiming
  cultural_adaptations : Option String
  health_rationale : Option String
deriving DecidableEq

/-! ## Recommendation operations -/

/-- Python substring containment (`needle in hay` on strings), character by
character. -/
def chars_lead (needle hay : List Char) : Bool :=
  match needle, hay with
  | [], _ => true
  | _ :: _, [] => false
  | a :: as_, b :: bs => a == b && chars_lead as_ bs

/-- Whether `needle` occurs as a contiguous run inside `hay`. -/
def chars_occur (needle : List Char) : List Char → Bool
  | [] => needle.isEmpty
  | b :: bs => chars_lead needle (b :: bs) || chars_occur needle bs

/-- Python `needle in hay` for strings. -/
def py_substr (needle hay : String) : Bool :=
  chars_occur needle.toList hay.toList

/-- The accumulation loop of `_filter_by_gi` (agent.py:201-205): walk `foods`,
appending each food whose `nutrition.get("gi", 50) < 55`. -/
def low_gi_loop (foods acc : List String) : List String :=
  match foods with
  | [] => acc
  | food :: rest =>
      low_gi_loop rest (if (get_nutritional_info food).gi < 55 then acc ++ [food] else acc)

/-- `_filter_by_gi` (agent.py:196-207). -/
def filter_by_gi (foods : List String) (limit_sugar : Bool) : List String :=
  if !limit_sugar then foods
  else
    let low_gi_foods := low_gi_loop foods []
    if low_gi_foods.isEmpty then foods.take 2 else low_gi_foods

/-- `_create_meal_plan` (agent.py:161-194).  The unused `profile` parameter of
the source is dropped. -/
def create_meal_plan (regional_foods : RegionalFoods) (restrictions : Restrictions) :
    MealPlan :=
  { breakfast :=
      { grains := (filter_by_gi regional_foods.grains restrictions.limit_sugar).take 2
        proteins :=
          (regional_foods.proteins.filter
            (fun food => (["eggs", "milk"] : List String).contains food)).take 1
        vegetables := []
        fruits := (filter_by_gi regional_foods.fruits restrictions.limit_sugar).take 2 }
    lunch :=
      { grains := regional_foods.grains.take 1
        proteins := regional_foods.proteins.take 1
        vegetables := regional_foods.vegetables.take 3
        legumes := regional_foods.legumes.take 1 }
    dinner :=
      { grains := regional_foods.grains.take 1
        proteins := regional_foods.proteins.take 1
        vegetables := regional_foods.vegetables.take 2 }
    snacks :=
      { fruits := (filter_by_gi regional_foods.fruits restrictions.limit_sugar).take 2
        nuts :=
          (regional_foods.legumes.filter
            (fun food => py_substr "nuts" food || py_substr "groundnuts" food)).take 1 } }

/-- `any(food in category for category in regional_foods.values())`
(agent.py:223, 232, 248, 253). -/
def in_any_category (regional_foods : RegionalFoods) (food : String) : Bool :=
  [regional_foods.grains, regional_foods.vegetables, regional_foods.fruits,
   regional_foods.legumes, regional_foods.proteins].any
    (fun category => category.contains food)

/-- `_get_preferred_foods` (agent.py:209-234). -/
def get_preferred_foods (regional_foods : RegionalFoods) (restrictions : Restrictions) :
    PreferredFoods :=
  { high_fiber :=
      if restrictions.increase_fiber then
        (["kale", "spinach", "beans", "sweet_potatoes", "avocados"] : List String).filter
          (fun food => in_any_category regional_foods food)
      else []
    low_sodium := []
    lean_proteins :=
      (["fish", "chicken", "eggs"] : List String).filter
        (fun food => regional_foods.proteins.contains food)
    complex_carbs :=
      (["millet", "sorghum", "sweet_potatoes"] : List String).filter
        (fun food => in_any_category regional_foods food) }

/-- `_get_foods_to_limit` (agent.py:236-255). -/
def get_foods_to_limit (regional_foods : RegionalFoods) (restrictions : Restrictions) :
    FoodsToLimit :=
  { high_gi_foods :=
      if restrictions.limit_sugar then
        (["rice", "watermelon", "dates"] : List String).filter
          (fun food => in_any_category regional_foods food)
      else []
    high_sodium_foods := []
    high_fat_foods :=
      if restrictions.limit_saturated_fat then
        (["coconut_milk", "groundnuts"] : List String).filter
          (fun food => in_any_category regional_foods food)
      else [] }

/-- The base guideline strings of `_get_portion_guidelines` (agent.py:259-265). -/
def base_portion_guidelines : PortionGuidelines :=
  { grains := "1/2 cup cooked"
    vegetables := "1 cup raw or 1/2 cup cooked"
    fruits := "1 medium fruit or 1/2 cup"
    proteins := "palm-sized portion (3-4 oz)"
    legumes := "1/2 cup cooked" }

/-- Prefix every guideline string, as the dict comprehensions of
agent.py:268 and 270 do. -/
def map_guidelines (f : String → String) (g : PortionGuidelines) : PortionGuidelines :=
  { grains := f g.grains
    vegetables := f g.vegetables
    fruits := f g.fruits
    proteins := f g.proteins
    legumes := f g.legumes }

/-- `_get_portion_guidelines` (agent.py:257-272). -/
def get_portion_guidelines (profile : Profile) : PortionGuidelines :=
  if profile.health_category = "high_risk" then
    map_guidelines (fun v => "Small " ++ v) base_portion_guidelines
  else if profile.bmi ≥ 30 then
    map_guidelines (fun v => "Moderate " ++ v) base_portion_guidelines
  else base_portion_guidelines

/-- The diabetic meal-timing template (agent.py:277-282). -/
def diabetic_meal_timing : MealTiming :=
  { frequency := "Eat 3 main meals and 2-3 small snacks"
    timing := "Eat every 3-4 hours to maintain stable blood sugar"
    breakfast := "Within 1 hour of waking up"
    dinner := "At least 2-3 hours before bedtime" }

/-- The non-diabetic meal-timing template (agent.py:284-289). -/
def general_meal_timing : MealTiming :=
  { frequency := "3 main meals with optional healthy snacks"
    timing := "Regular meal times help maintain energy levels"
    breakfast := "Start your day with a balanced meal"
    dinner := "Light dinner 2-3 hours before bedtime" }

/-- `_get_meal_timing_advice` (agent.py:274-289). -/
def get_meal_timing_advice (diabetes_status : String) : MealTiming :=
  if (["type1", "type2"] : List String).contains diabetes_status then diabetic_meal_timing
  else general_meal_timing

/-- The flattened list of every food id of a catalog entry:
`[food for foods in regional_foods.values() for food in foods]` (agent.py:310). -/
def all_available_foods (regional_foods : RegionalFoods) : List String :=
  regional_foods.grains ++ regional_foods.vegetables ++ regional_foods.fruits ++
    regional_foods.legumes ++ regional_foods.proteins

/-- `_filter_meal_plan_by_availability` (agent.py:307-317): keep, in every list
of every meal, only the foods present somewhere in the catalog entry. -/
def filter_meal_plan_by_availability (meal_plan : MealPlan)
    (regional_foods : RegionalFoods) : MealPlan :=
  let avail := all_available_foods regional_foods
  let keep := fun (foods : List String) => foods.filter (fun food => avail.contains food)
  { breakfast :=
      { grains := keep meal_plan.breakfast.grains
        proteins := keep meal_plan.breakfast.proteins
        vegetables := keep meal_plan.breakfast.vegetables
        fruits := keep meal_plan.breakfast.fruits }
    lunch :=
      { grains := keep meal_plan.lunch.grains
        proteins := keep meal_plan.lunch.proteins
        vegetables := keep meal_plan.lunch.vegetables
        legumes := keep meal_plan.lunch.legumes }
    dinner :=
      { grains := keep meal_plan.dinner.grains
        proteins := keep meal_plan.dinner.proteins
        vegetables := keep meal_plan.dinner.vegetables }
    snacks :=
      { fruits := keep meal_plan.snacks.fruits
        nuts := keep meal_plan.snacks.nuts } }

/-- `_generate_fallback_recommendations` (agent.py:140-159). -/
def generate_fallback_recommendations (profile : Profile)
    (regional_foods : RegionalFoods) : Recommendation :=
  { meal_plan := create_meal_plan regional_foods profile.dietary_restrictions
    preferred_foods := get_preferred_foods regional_foods profile.dietary_restrictions
    foods_to_limit := get_foods_to_limit regional_foods profile.dietary_restrictions
    portion_guidelines := get_portion_guidelines profile
    meal_timing := get_meal_timing_advice profile.diabetes_status
    cultural_adaptations :=
      some "Recommendations adapted for traditional Kenyan dietary patterns"
    health_rationale :=
      some ("Recommendations tailored for " ++ profile.health_category ++
        " health status with " ++ profile.diabetes_status ++ " diabetes condition") }

/-- A complete meal plan seen as a candidate one (all four meals present), as
`_get_fallback_section "meal_plan"` leaves it. -/
def to_cand_meal_plan (meal_plan : MealPlan) : CandMealPlan :=
  { breakfast := some meal_plan.breakfast
    lunch := some meal_plan.lunch
    dinner := some meal_plan.dinner
    snacks := some meal_plan.snacks }

/-- `_validate_recommendations` (agent.py:117-138).  Missing sections are
substituted via `_get_fallback_section` (agent.py:291-305); then each of the
four required meals is checked, but the source's substitution call
`self._get_fallback_meal(...)` names a method that does not exist anywhere in
the class, so a candidate whose `meal_plan` lacks a meal raises
`AttributeError` (modelled as `none`, which `generate_recommendations` catches
and turns into the full fallback); finally the surviving meal plan goes
through the availability filter. -/
def candidate_meal_plan (cand : RecCandidate) (profile : Profile)
    (regional_foods : RegionalFoods) : CandMealPlan :=
  match cand.meal_plan with
  | some mp => mp
  | none => to_cand_meal_plan (create_meal_plan regional_foods profile.dietary_restrictions)

/-- The section- and slot-level reconciliation of `_validate_recommendations`,
continued: the four required meals of the (possibly substituted) meal plan,
then the availability post-filter and the `getD` substitutions for the other
four sections. -/
def validate_recommendations (cand : RecCandidate) (profile : Profile)
    (regional_foods : RegionalFoods) : Option Recommendation :=
  match (candidate_meal_plan cand profile regional_foods).breakfast,
      (candidate_meal_plan cand profile regional_foods).lunch,
      (candidate_meal_plan cand profile regional_foods).dinner,
      (candidate_meal_plan cand profile regional_foods).snacks with
  | some b, some l, some di, some s =>
      some
        { meal_plan := filter_meal_plan_by_availability ⟨b, l, di, s⟩ regional_foods
          preferred_foods :=
            cand.preferred_foods.getD
              (get_preferred_foods regional_foods profile.dietary_restrictions)
          foods_to_limit :=
            cand.foods_to_limit.getD
              (get_foods_to_limit regional_foods profile.dietary_restrictions)
          portion_guidelines := cand.portion_guidelines.getD (get_portion_guidelines profile)
          meal_timing := cand.meal_timing.getD (get_meal_timing_advice profile.diabetes_status)
          cultural_adaptations := cand.cultural_adaptations
          health_rationale := cand.health_rationale }
  | _, _, _, _ => none

/-- `generate_recommendations` (agent.py:27-115).  `candidate = none` models a
failed external call or unparseable answer; any exception inside the `try`
block (including the `AttributeError` of the missing `_get_fallback_meal`)
falls back to `_generate_fallback_recommendations`. -/
def generate_recommendations (candidate : Option RecCandidate) (profile : Profile)
    (regional_foods : RegionalFoods) : Recommendation :=
  match candidate with
  | none => generate_fallback_recommendations profile regional_foods
  | some cand =>
      match validate_recommendations cand profile regional_foods with
      | some r => r
      | none => generate_fallback_recommendations profile regional_foods

/-! ## Definitions modelled from the spec's words
These restate, in the spec's own terms, what §4.1-§4.4 and §8 of spec.md
describe, for comparison with the embedded source. -/

/-- Modelled from the spec (§4.1 step 2): the count of the eight boolean risk
factors, with the spec's thresholds and mutual exclusions. -/
def spec_risk_count (bmi blood_sugar : ℚ) (bp : BloodPressure) (diabetes_status : String) :
    ℕ :=
  (if bmi ≥ 30 then 1 else 0) +
  (if 25 ≤ bmi ∧ bmi < 30 then 1 else 0) +
  (if blood_sugar > 126 then 1 else 0) +
  (if 100 < blood_sugar ∧ blood_sugar ≤ 126 then 1 else 0) +
  (if bp.systolic ≥ 140 ∨ bp.diastolic ≥ 90 then 1 else 0) +
  (if ¬(bp.systolic ≥ 140 ∨ bp.diastolic ≥ 90) ∧
      ((130 ≤ bp.systolic ∧ bp.systolic < 140) ∨ (80 ≤ bp.diastolic ∧ bp.diastolic < 90))
   then 1 else 0) +
  (if diabetes_status = "type1" ∨ diabetes_status = "type2" then 1 else 0) +
  (if diabetes_status = "prediabetes" then 1 else 0)

/-- Modelled from the spec (§4.1 step 3): count ≥ 3 → high_risk, count ≥ 1 →
moderate_risk, else low_risk. -/
def spec_category_of_count (n : ℕ) : String :=
  if 3 ≤ n then "high_risk" else if 1 ≤ n then "moderate_risk" else "low_risk"

/-- The ordering low_risk < moderate_risk < high_risk of §8, as a rank. -/
def category_rank (category : String) : ℕ :=
  if category = "high_risk" then 2 else if category = "moderate_risk" then 1 else 0

/-- Modelled from the spec (§4.3 GI filter): `limit_sugar = false` passes the
list through; otherwise keep the foods of nutrition GI < 55, and if none
remain fall back to the first 2 items of the original list. -/
def spec_filter_by_gi (foods : List String) (limit_sugar : Bool) : List String :=
  if limit_sugar then
    let low := foods.filter (fun food => decide ((get_nutritional_info food).gi < 55))
    if low.isEmpty then foods.take 2 else low
  else foods

/-- The Recommendation of §3: exactly the five spec-defined sections. -/
structure SpecRecommendation where
  meal_plan : MealPlan
  preferred_foods : PreferredFoods
  foods_to_limit : FoodsToLimit
  portion_guidelines : PortionGuidelines
  meal_timing : MealTiming
deriving DecidableEq

/-- The five spec-defined sections of a produced recommendation. -/
def to_spec_recommendation (r : Recommendation) : SpecRecommendation :=
  ⟨r.meal_plan, r.preferred_foods, r.foods_to_limit, r.portion_guidelines, r.meal_timing⟩

/-- Modelled from the spec (§4.3 RecommendationEngine):
`build(profile, catalog_entry)`, the deterministic engine — fixed per-slot
meal composition and caps in catalog list order, preferred/limited food lists
intersected with catalog availability, portion prefixes, and the two timing
templates. -/
def RecommendationEngine_build (profile : Profile) (catalog_entry : RegionalFoods) :
    SpecRecommendation :=
  let r := profile.dietary_restrictions
  { meal_plan :=
      { breakfast :=
          { grains := (spec_filter_by_gi catalog_entry.grains r.limit_sugar).take 2
            proteins :=
              (catalog_entry.proteins.filter
                (fun food => decide (food ∈ (["eggs", "milk"] : List String)))).take 1
            vegetables := []
            fruits := (spec_filter_by_gi catalog_entry.fruits r.limit_sugar).take 2 }
        lunch :=
          { grains := catalog_entry.grains.take 1
            proteins := catalog_entry.proteins.take 1
            vegetables := catalog_entry.vegetables.take 3
            legumes := catalog_entry.legumes.take 1 }
        dinner :=
          { grains := catalog_entry.grains.take 1
            proteins := catalog_entry.proteins.take 1
            vegetables := catalog_entry.vegetables.take 2 }
        snacks :=
          { fruits := (spec_filter_by_gi catalog_entry.fruits r.limit_sugar).take 2
            nuts :=
              (catalog_entry.legumes.filter
                (fun food => py_substr "nuts" food || py_substr "groundnuts" food)).take 1 } }
    preferred_foods :=
      { high_fiber :=
          if r.increase_fiber then
            (["kale", "spinach", "beans", "sweet_potatoes", "avocados"] : List String).filter
              (fun food => decide (food ∈ all_available_foods catalog_entry))
          else []
        low_sodium := []
        lean_proteins :=
          (["fish", "chicken", "eggs"] : List String).filter
            (fun food => decide (food ∈ catalog_entry.proteins))
        complex_carbs :=
          (["millet", "sorghum", "sweet_potatoes"] : List String).filter
            (fun food => decide (food ∈ all_available_foods catalog_entry)) }
    foods_to_limit :=
      { high_gi_foods :=
          if r.limit_sugar then
            (["rice", "watermelon", "dates"] : List String).filter
              (fun food => decide (food ∈ all_available_foods catalog_entry))
          else []
        high_sodium_foods := []
        high_fat_foods :=
          if r.limit_saturated_fat then
            (["coconut_milk", "groundnuts"] : List String).filter
              (fun food => decide (food ∈ all_available_foods catalog_entry))
          else [] }
    portion_guidelines :=
      if profile.health_category = "high_risk" then
        map_guidelines (fun v => "Small " ++ v) base_portion_guidelines
      else if profile.bmi ≥ 30 then
        map_guidelines (fun v => "Moderate " ++ v) base_portion_guidelines
      else base_portion_guidelines
    meal_timing :=
      if profile.diabetes_status = "type1" ∨ profile.diabetes_status = "type2" then
        diabetic_meal_timing
      else general_meal_timing }

/-! ## Concrete inputs used by the witness and counterexample theorems -/

/-- A structurally valid patient (age 20, 300 kg, 2.00 m) whose rule-based
calorie fallback lands far above 4000. -/
def c1_input : PatientData :=
  { age := 20, weight := 300, height := 2, blood_sugar := 90,
    blood_pressure := ⟨120, 70⟩, diabetes_status := "none", location := "nairobi" }

/-- A patient with a negative age (and otherwise ordinary vitals). -/
def c2_input : PatientData :=
  { age := -5, weight := 70, height := 1.7, blood_sugar := 90,
    blood_pressure := ⟨120, 70⟩, diabetes_status := "none", location := "nairobi" }

/-- The spec's §8 end-to-end patient, as raw data. -/
def c5_input : PatientData :=
  { age := 45, weight := 78, height := 1.68, blood_sugar := 135,
    blood_pressure := ⟨140, 85⟩, diabetes_status := "prediabetes", location := "nairobi" }

/-- An external profile candidate for `c5_input` carrying a wrong BMI (99). -/
def c5_ext : ExtProfile :=
  { age := 45, weight := 78, height := 1.68, bmi := 99, blood_sugar := 135,
    blood_pressure := ⟨140, 85⟩, diabetes_status := "prediabetes", location := "nairobi",
    health_category := some "high_risk",
    dietary_restrictions := get_dietary_restrictions "prediabetes" "high_risk",
    calorie_needs := some 2000, analysis_reasoning := "" }

/-- The spec's §8 end-to-end patient as a finished profile. -/
def sample_profile : Profile :=
  { age := 45, weight := 78, height := 1.68, bmi := 27.64, blood_sugar := 135,
    blood_pressure := ⟨140, 85⟩, diabetes_status := "prediabetes", location := "nairobi",
    health_category := "high_risk",
    dietary_restrictions := get_dietary_restrictions "prediabetes" "high_risk",
    calorie_needs := 2000, analysis_reasoning := "rule-based" }

/-- An external recommendation candidate listing "quinoa" (not stocked by the
central region) next to "maize" in the breakfast grains. -/
def c3_candidate : RecCandidate :=
  { meal_plan := some
      { breakfast := some ⟨["quinoa", "maize"], [], [], []⟩
        lunch := some ⟨[], [], [], []⟩
        dinner := some ⟨[], [], []⟩
        snacks := some ⟨[], []⟩ }
    preferred_foods := some ⟨[], [], [], []⟩
    foods_to_limit := some ⟨[], [], []⟩
    portion_guidelines := some base_portion_guidelines
    meal_timing := some general_meal_timing
    cultural_adaptations := none
    health_rationale := none }

/-! ## Helper lemmas -/

/-- Python list membership as propositional membership. -/
theorem contains_eq_decide_mem (l : List String) (a : String) :
    l.contains a = decide (a ∈ l) := by
  by_cases h : a ∈ l <;> simp [h]

/-- The accumulation loop of `_filter_by_gi` is a `List.filter`. -/
theorem low_gi_loop_eq_filter (foods acc : List String) :
    low_gi_loop foods acc =
      acc ++ foods.filter (fun food => decide ((get_nutritional_info food).gi < 55)) := by
  induction foods generalizing acc with
  | nil => simp [low_gi_loop]
  | cons food rest ih =>
      by_cases h : (get_nutritional_info food).gi < 55 <;>
        simp [low_gi_loop, h, ih, List.filter_cons]

/-- The source's GI filter computes exactly the spec's GI filter. -/
theorem filter_by_gi_eq_spec (foods : List String) (limit_sugar : Bool) :
    filter_by_gi foods limit_sugar = spec_filter_by_gi foods limit_sugar := by
  cases limit_sugar <;> simp [filter_by_gi, spec_filter_by_gi, low_gi_loop_eq_filter]

/-- The GI filter only returns foods of its input list. -/
theorem filter_by_gi_subset (foods : List String) (limit_sugar : Bool) :
    filter_by_gi foods limit_sugar ⊆ foods := by
  rw [filter_by_gi_eq_spec]
  cases limit_sugar with
  | false => simp [spec_filter_by_gi]
  | true =>
      simp only [spec_filter_by_gi, if_true]
      split
      · exact List.take_subset 2 foods
      · exact fun _ h => List.mem_of_mem_filter h

/-- `any(food in category for category in regional_foods.values())` is
membership in the flattened catalog. -/
theorem in_any_category_eq (regional_foods : RegionalFoods) (food : String) :
    in_any_category regional_foods food = decide (food ∈ all_available_foods regional_foods) := by
  by_cases h : food ∈ all_available_foods regional_foods <;>
    simp_all [in_any_category, all_available_foods, List.mem_append]

/-- Length of the BMI segment of the risk-factor list. -/
theorem bmi_factors_length (bmi : ℚ) :
    (if bmi ≥ 30 then (["obesity"] : List String)
     else if bmi ≥ 25 then ["overweight"] else []).length
      = (if bmi ≥ 30 then 1 else 0) + (if 25 ≤ bmi ∧ bmi < 30 then 1 else 0) := by
  by_cases h30 : bmi ≥ 30
  · have hc : ¬(25 ≤ bmi ∧ bmi < 30) := fun hc => absurd h30 (not_le.mpr hc.2)
    simp [h30, hc]
  · by_cases h25 : bmi ≥ 25
    · have hc : 25 ≤ bmi ∧ bmi < 30 := ⟨h25, lt_of_not_le h30⟩
      simp [h30, h25, hc]
    · have hc : ¬(25 ≤ bmi ∧ bmi < 30) := fun hc => h25 hc.1
      simp [h30, h25, hc]

/-- Length of the blood-sugar segment of the risk-factor list. -/
theorem sugar_factors_length (blood_sugar : ℚ) :
    (if blood_sugar > 126 then (["high_blood_sugar"] : List String)
     else if blood_sugar > 100 then ["elevated_blood_sugar"] else []).length
      = (if blood_sugar > 126 then 1 else 0) +
        (if 100 < blood_sugar ∧ blood_sugar ≤ 126 then 1 else 0) := by
  by_cases h126 : blood_sugar > 126
  · have hc : ¬(100 < blood_sugar ∧ blood_sugar ≤ 126) :=
      fun hc => absurd hc.2 (not_le.mpr h126)
    simp [h126, hc]
  · by_cases h100 : blood_sugar > 100
    · have hc : 100 < blood_sugar ∧ blood_sugar ≤ 126 := ⟨h100, le_of_not_lt h126⟩
      simp [h126, h100, hc]
    · have hc : ¬(100 < blood_sugar ∧ blood_sugar ≤ 126) := fun hc => h100 hc.1
      simp [h126, h100, hc]

/-- Length of the blood-pressure segment of the risk-factor list. -/
theorem bp_factors_length (bp : BloodPressure) :
    (if bp.systolic ≥ 140 ∨ bp.diastolic ≥ 90 then (["hypertension"] : List String)
     else if bp.systolic ≥ 130 ∨ bp.diastolic ≥ 80 then ["elevated_bp"] else []).length
      = (if bp.systolic ≥ 140 ∨ bp.diastolic ≥ 90 then 1 else 0) +
        (if ¬(bp.systolic ≥ 140 ∨ bp.diastolic ≥ 90) ∧
            ((130 ≤ bp.systolic ∧ bp.systolic < 140) ∨
             (80 ≤ bp.diastolic ∧ bp.diastolic < 90)) then 1 else 0) := by
  by_cases hh : bp.systolic ≥ 140 ∨ bp.diastolic ≥ 90
  · simp [hh]
  · by_cases he : bp.systolic ≥ 130 ∨ bp.diastolic ≥ 80
    · have hc : (130 ≤ bp.systolic ∧ bp.systolic < 140) ∨
          (80 ≤ bp.diastolic ∧ bp.diastolic < 90) := by omega
      simp [hh, he, hc]
    · have hc : ¬((130 ≤ bp.systolic ∧ bp.systolic < 140) ∨
          (80 ≤ bp.diastolic ∧ bp.diastolic < 90)) := by omega
      simp [hh, he, hc]

/-- Length of the diabetes segment of the risk-factor list. -/
theorem diabetes_factors_length (diabetes_status : String) :
    (if diabetes_status = "type1" ∨ diabetes_status = "type2" then (["diabetes"] : List String)
     else if diabetes_status = "prediabetes" then ["prediabetes"] else []).length
      = (if diabetes_status = "type1" ∨ diabetes_status = "type2" then 1 else 0) +
        (if diabetes_status = "prediabetes" then 1 else 0) := by
  by_cases h1 : diabetes_status = "type1" ∨ diabetes_status = "type2"
  · have h2 : ¬(diabetes_status = "prediabetes") := by rcases h1 with h | h <;> simp [h]
    simp [h1, h2]
  · by_cases h2 : diabetes_status = "prediabetes" <;> simp [h1, h2]

/-- The source's risk-factor list has exactly the spec's factor count. -/
theorem risk_factors_length (bmi blood_sugar : ℚ) (bp : BloodPressure)
    (diabetes_status : String) :
    (risk_factors bmi blood_sugar bp diabetes_status).length
      = spec_risk_count bmi blood_sugar bp diabetes_status := by
  simp only [risk_factors, spec_risk_count, List.length_append, bmi_factors_length,
    sugar_factors_length, bp_factors_length, diabetes_factors_length]
  ring

/-- The source's categorization is the spec's category of the spec's count. -/
theorem categorize_eq_spec (age : ℤ) (bmi blood_sugar : ℚ) (bp : BloodPressure)
    (diabetes_status : String) :
    categorize_health_status age bmi blood_sugar bp diabetes_status
      = spec_category_of_count (spec_risk_count bmi blood_sugar bp diabetes_status) := by
  simp only [categorize_health_status, spec_category_of_count, risk_factors_length, ge_iff_le]

/-- The spec's category rank is monotone in the factor count. -/
theorem category_rank_mono {m n : ℕ} (h : m ≤ n) :
    category_rank (spec_category_of_count m) ≤ category_rank (spec_category_of_count n) := by
  by_cases hm3 : 3 ≤ m <;> by_cases hn3 : 3 ≤ n <;>
    by_cases hm1 : 1 ≤ m <;> by_cases hn1 : 1 ≤ n <;>
      simp_all [spec_category_of_count, category_rank] <;> try omega

/-- Every food id appearing in any list under a meal plan, flattened. -/
def meal_plan_all_foods (mp : MealPlan) : List String :=
  mp.breakfast.grains ++ mp.breakfast.proteins ++ mp.breakfast.vegetables ++
    mp.breakfast.fruits ++ mp.lunch.grains ++ mp.lunch.proteins ++ mp.lunch.vegetables ++
    mp.lunch.legumes ++ mp.dinner.grains ++ mp.dinner.proteins ++ mp.dinner.vegetables ++
    mp.snacks.fruits ++ mp.snacks.nuts

/-- Grains are part of the flattened catalog. -/
theorem grains_sub (rf : RegionalFoods) : rf.grains ⊆ all_available_foods rf := by
  intro x h; simp only [all_available_foods, List.mem_append]; tauto

/-- Vegetables are part of the flattened catalog. -/
theorem vegetables_sub (rf : RegionalFoods) : rf.vegetables ⊆ all_available_foods rf := by
  intro x h; simp only [all_available_foods, List.mem_append]; tauto

/-- Fruits are part of the flattened catalog. -/
theorem fruits_sub (rf : RegionalFoods) : rf.fruits ⊆ all_available_foods rf := by
  intro x h; simp only [all_available_foods, List.mem_append]; tauto

/-- Legumes are part of the flattened catalog. -/
theorem legumes_sub (rf : RegionalFoods) : rf.legumes ⊆ all_available_foods rf := by
  intro x h; simp only [all_available_foods, List.mem_append]; tauto

/-- Proteins are part of the flattened catalog. -/
theorem proteins_sub (rf : RegionalFoods) : rf.proteins ⊆ all_available_foods rf := by
  intro x h; simp only [all_available_foods, List.mem_append]; tauto

/-- Surviving the availability filter means being in the flattened catalog. -/
theorem mem_of_mem_avail_filter {foods : List String} {rf : RegionalFoods} {f : String}
    (h : f ∈ foods.filter (fun food => (all_available_foods rf).contains food)) :
    f ∈ all_available_foods rf := by
  have hc := List.of_mem_filter h
  simpa [contains_eq_decide_mem] using hc

/-- Every food of an availability-filtered meal plan is in the flattened
catalog. -/
theorem filter_meal_plan_avail (mp : MealPlan) (rf : RegionalFoods) :
    ∀ f ∈ meal_plan_all_foods (filter_meal_plan_by_availability mp rf),
      f ∈ all_available_foods rf := by
  intro f hf
  simp only [meal_plan_all_foods, filter_meal_plan_by_availability, List.mem_append,
    or_assoc] at hf
  rcases hf with h|h|h|h|h|h|h|h|h|h|h|h|h <;> exact mem_of_mem_avail_filter h

/-- Every food of the rule-based meal plan is in the flattened catalog. -/
theorem create_meal_plan_avail (rf : RegionalFoods) (restrictions : Restrictions) :
    ∀ f ∈ meal_plan_all_foods (create_meal_plan rf restrictions),
      f ∈ all_available_foods rf := by
  intro f hf
  simp only [meal_plan_all_foods, create_meal_plan, List.mem_append, or_assoc] at hf
  rcases hf with h|h|h|h|h|h|h|h|h|h|h|h|h
  · exact grains_sub rf (filter_by_gi_subset _ _ (List.take_subset _ _ h))
  · exact proteins_sub rf (List.mem_of_mem_filter (List.take_subset _ _ h))
  · exact absurd h (List.not_mem_nil f)
  · exact fruits_sub rf (filter_by_gi_subset _ _ (List.take_subset _ _ h))
  · exact grains_sub rf (List.take_subset _ _ h)
  · exact proteins_sub rf (List.take_subset _ _ h)
  · exact vegetables_sub rf (List.take_subset _ _ h)
  · exact legumes_sub rf (List.take_subset _ _ h)
  · exact grains_sub rf (List.take_subset _ _ h)
  · exact proteins_sub rf (List.take_subset _ _ h)
  · exact vegetables_sub rf (List.take_subset _ _ h)
  · exact fruits_sub rf (filter_by_gi_subset _ _ (List.take_subset _ _ h))
  · exact legumes_sub rf (List.mem_of_mem_filter (List.take_subset _ _ h))

/-- The rule-based fallback recommendation, projected to its five
spec-defined sections, is exactly the spec's deterministic engine output. -/
theorem fallback_eq_engine (profile : Profile) (rf : RegionalFoods) :
    to_spec_recommendation (generate_fallback_recommendations profile rf)
      = RecommendationEngine_build profile rf := by
  simp only [to_spec_recommendation, generate_fallback_recommendations,
    RecommendationEngine_build, create_meal_plan, get_preferred_foods, get_foods_to_limit,
    get_portion_guidelines, get_meal_timing_advice, filter_by_gi_eq_spec,
    in_any_category_eq, contains_eq_decide_mem, decide_eq_true_eq, List.mem_cons,
    List.mem_singleton, List.not_mem_nil, or_false]

/-- A successfully validated recommendation's meal plan only lists foods of
the flattened catalog (it went through the availability post-filter). -/
theorem validate_meal_plan_avail {cand : RecCandidate} {profile : Profile}
    {rf : RegionalFoods} {r : Recommendation}
    (h : validate_recommendations cand profile rf = some r) :
    ∀ f ∈ meal_plan_all_foods r.meal_plan, f ∈ all_available_foods rf := by
  unfold validate_recommendations at h
  split at h
  next b l di s hb hl hd hs =>
    injection h with h
    subst h
    exact filter_meal_plan_avail _ rf
  next => simp at h

/-! ## The claims -/

/-- C1: the spec claims `800 ≤ calorie_needs ≤ 4000` for every structurally
valid input, but the source only range-checks the external candidate's value;
the rule-based `calculate_calorie_needs` fallback that replaces an absent or
out-of-range candidate value is itself never clamped.  At age 20, weight
300 kg, height 2 m (candidate absent) the returned profile carries
`calorie_needs = 6440 > 4000`, contradicting the clamp the source's own
comment ("Ensure calorie needs is reasonable (800-4000 range)") announces. -/
theorem c1_calorie_needs_unclamped :
    ∃ p, create_patient_profile none c1_input = Except.ok p ∧
      p.calorie_needs = 6440 ∧ ¬(800 ≤ p.calorie_needs ∧ p.calorie_needs ≤ 4000) := by
  have hcal : calculate_calorie_needs 20 300 2 = 6440 := by
    norm_num [calculate_calorie_needs, py_int]
  refine ⟨fallback_profile_creation c1_input, ?_, ?_, ?_⟩
  · norm_num [create_patient_profile, c1_input]
  · show calculate_calorie_needs 20 300 2 = 6440
    exact hcal
  · show ¬(800 ≤ calculate_calorie_needs 20 300 2 ∧ calculate_calorie_needs 20 300 2 ≤ 4000)
    rw [hcal]
    norm_num

/-- C2 counterexample: the claim says every call with weight ≤ 0, height ≤ 0
or age < 0 fails with `InvalidInputError` and returns no profile; at age -5
the source returns a complete profile and raises nothing. -/
theorem c2_counterexample :
    c2_input.age < 0 ∧
      create_patient_profile none c2_input
        = Except.ok (fallback_profile_creation c2_input) ∧
      create_patient_profile none c2_input ≠ Except.error PErr.invalidInputError := by
  have hok : create_patient_profile none c2_input
      = Except.ok (fallback_profile_creation c2_input) := by
    norm_num [create_patient_profile, c2_input]
  refine ⟨by norm_num [c2_input], hok, ?_⟩
  rw [hok]
  exact fun hcon => Except.noConfusion hcon

/-- C2 amended: the profiler performs no vitals validation at all.  Every call
with height ≠ 0 (weight and age unconstrained, however invalid) returns a
complete profile; height = 0 raises an uncaught `ZeroDivisionError`, not
`InvalidInputError`. -/
theorem c2_no_input_validation (candidate : Option ExtProfile) (d : PatientData) :
    (d.height = 0 →
      create_patient_profile candidate d = Except.error PErr.zeroDivisionError) ∧
    (d.height ≠ 0 → ∃ p, create_patient_profile candidate d = Except.ok p) := by
  constructor
  · intro h
    simp [create_patient_profile, h]
  · intro h
    cases candidate with
    | some ext => exact ⟨validate_profile ext d, by simp [create_patient_profile, h]⟩
    | none => exact ⟨fallback_profile_creation d, by simp [create_patient_profile, h]⟩

/-- C3: every food id appearing in any list under the meal plan of a produced
recommendation — whether the external candidate survived validation (the
availability post-filter) or the deterministic fallback was used — is a member
of the flattened food ids of the five categories of the catalog entry. -/
theorem c3_availability_invariant (candidate : Option RecCandidate) (profile : Profile)
    (regional_foods : RegionalFoods) :
    ∀ f ∈ meal_plan_all_foods
        ((generate_recommendations candidate profile regional_foods).meal_plan),
      f ∈ all_available_foods regional_foods := by
  intro f hf
  cases candidate with
  | none => exact create_meal_plan_avail regional_foods profile.dietary_restrictions f hf
  | some cand =>
      rcases hv : validate_recommendations cand profile regional_foods with _ | r
      · simp only [generate_recommendations, hv] at hf
        exact create_meal_plan_avail regional_foods profile.dietary_restrictions f hf
      · simp only [generate_recommendations, hv] at hf
        exact validate_meal_plan_avail hv f hf

/-- C3 witness: for the central region, a candidate listing "quinoa" has it
removed by the availability filter, and the surviving "maize" is indeed
stocked by the region. -/
theorem c3_availability_witness :
    "quinoa" ∉ meal_plan_all_foods
        ((generate_recommendations (some c3_candidate) sample_profile
            central_foods).meal_plan) ∧
      "maize" ∈ all_available_foods central_foods :=
  ⟨by decide,
    c3_availability_invariant (some c3_candidate) sample_profile central_foods "maize"
      (by decide)⟩

/-- C4: with `limit_sugar = false` the GI filter returns the list unchanged;
with `limit_sugar = true` it returns exactly the foods of glycemic index
strictly below 55, except that an empty filtered result is replaced by the
first 2 items of the original unfiltered list. -/
theorem c4_gi_filter_characterization (foods : List String) :
    filter_by_gi foods false = foods ∧
    filter_by_gi foods true =
      (if (foods.filter (fun food => decide ((get_nutritional_info food).gi < 55))).isEmpty
       then foods.take 2
       else foods.filter (fun food => decide ((get_nutritional_info food).gi < 55))) := by
  refine ⟨?_, ?_⟩ <;> rw [filter_by_gi_eq_spec] <;> simp [spec_filter_by_gi]

/-- C5: whatever BMI the external candidate supplied, the profile returned for
weight > 0, height > 0 carries `round(weight / height², 2)`. -/
theorem c5_bmi_always_recomputed (candidate : Option ExtProfile) (d : PatientData)
    (p : Profile) (_hw : 0 < d.weight) (hh : 0 < d.height)
    (hp : create_patient_profile candidate d = Except.ok p) :
    p.bmi = py_round2 (d.weight / d.height ^ 2) := by
  cases candidate with
  | some ext =>
      have he : create_patient_profile (some ext) d = Except.ok (validate_profile ext d) := by
        simp [create_patient_profile, ne_of_gt hh]
      rw [he] at hp
      injection hp with hp
      subst hp
      rfl
  | none =>
      have he : create_patient_profile none d = Except.ok (fallback_profile_creation d) := by
        simp [create_patient_profile, ne_of_gt hh]
      rw [he] at hp
      injection hp with hp
      subst hp
      rfl

/-- C5 witness: the §8 patient with an external candidate claiming BMI 99
still gets the recomputed value. -/
theorem c5_bmi_witness :
    (validate_profile c5_ext c5_input).bmi
      = py_round2 (c5_input.weight / c5_input.height ^ 2) :=
  c5_bmi_always_recomputed (some c5_ext) c5_input (validate_profile c5_ext c5_input)
    (by norm_num [c5_input]) (by norm_num [c5_input])
    (by norm_num [create_patient_profile, c5_input])

/-- C6: the source tallies exactly the eight spec-defined boolean risk factors
with the spec's thresholds and mutual exclusions, and returns the category
determined by the count: ≥ 3 high_risk, 1-2 moderate_risk, 0 low_risk. -/
theorem c6_risk_categorization_spec (age : ℤ) (bmi blood_sugar : ℚ) (bp : BloodPressure)
    (diabetes_status : String) :
    (risk_factors bmi blood_sugar bp diabetes_status).length
        = spec_risk_count bmi blood_sugar bp diabetes_status ∧
      categorize_health_status age bmi blood_sugar bp diabetes_status
        = spec_category_of_count (spec_risk_count bmi blood_sugar bp diabetes_status) :=
  ⟨risk_factors_length bmi blood_sugar bp diabetes_status,
    categorize_eq_spec age bmi blood_sugar bp diabetes_status⟩

/-- C7: reconciling with an absent (or unparseable) external candidate returns
exactly the rule-based recommendation, and that recommendation's five
spec-defined sections are exactly the spec's deterministic engine output. -/
theorem c7_fallback_completeness (profile : Profile) (regional_foods : RegionalFoods) :
    generate_recommendations none profile regional_foods
        = generate_fallback_recommendations profile regional_foods ∧
      to_spec_recommendation (generate_recommendations none profile regional_foods)
        = RecommendationEngine_build profile regional_foods :=
  ⟨rfl, fallback_eq_engine profile regional_foods⟩

/-- C8: adding one risk factor (the spec count growing by exactly one, all
else arbitrary) never decreases the health category under
low_risk < moderate_risk < high_risk. -/
theorem c8_risk_monotonicity (age1 age2 : ℤ) (bmi1 bmi2 blood_sugar1 blood_sugar2 : ℚ)
    (bp1 bp2 : BloodPressure) (ds1 ds2 : String)
    (h : spec_risk_count bmi2 blood_sugar2 bp2 ds2
          = spec_risk_count bmi1 blood_sugar1 bp1 ds1 + 1) :
    category_rank (categorize_health_status age1 bmi1 blood_sugar1 bp1 ds1)
      ≤ category_rank (categorize_health_status age2 bmi2 blood_sugar2 bp2 ds2) := by
  rw [categorize_eq_spec, categorize_eq_spec]
  exact category_rank_mono (by omega)

/-- C8 witness: going from no risk factor (BMI 20) to one (BMI 26, overweight)
moves the category from low_risk to moderate_risk, not downward. -/
theorem c8_monotonicity_witness :
    category_rank (categorize_health_status 30 20 90 ⟨120, 70⟩ "none")
      ≤ category_rank (categorize_health_status 30 26 90 ⟨120, 70⟩ "none") :=
  c8_risk_monotonicity 30 30 20 26 90 90 ⟨120, 70⟩ ⟨120, 70⟩ "none" "none" (by decide)

/-- C9: region resolution lower-cases the location, consults the alias table
(falling back to the lower-cased name as a direct region id), and a location
resolving neither way yields the central region's catalog — never an error, so
the lookup succeeds for arbitrary free text. -/
theorem c9_unresolved_location_defaults (location : String) :
    (regional_foods_db.lookup (resolve_region location)).isSome = true ∧
    get_regional_foods_fallback location
      = (regional_foods_db.lookup (resolve_region location)).getD central_foods ∧
    ((region_mapping.lookup location.toLower = none ∧
        regional_foods_db.lookup location.toLower = none) →
      resolve_region location = "central" ∧
      get_regional_foods_fallback location = central_foods) := by
  have hc : regional_foods_db.lookup "central" = some central_foods := rfl
  by_cases h : (regional_foods_db.lookup
      ((region_mapping.lookup location.toLower).getD location.toLower)).isSome
  · obtain ⟨foods, hf⟩ := Option.isSome_iff_exists.mp h
    have hres : resolve_region location
        = (region_mapping.lookup location.toLower).getD location.toLower := by
      simp [resolve_region, h]
    refine ⟨by rw [hres]; exact h, ?_, ?_⟩
    · simp [get_regional_foods_fallback, hres, hf]
    · rintro ⟨h1, h2⟩
      exfalso
      rw [h1] at h
      simp [h2] at h
  · have hn := Option.not_isSome_iff_eq_none.mp h
    have hres : resolve_region location = "central" := by
      simp [resolve_region, h]
    refine ⟨by rw [hres, hc]; rfl, ?_, fun _ => ⟨hres, ?_⟩⟩
    · simp [get_regional_foods_fallback, hres, hn, hc]
    · simp [get_regional_foods_fallback, hn]

/-- C10: the restrictions derived from any diabetes status and health category
set limit_sodium, portion_control and limit_saturated_fat to the same
predicate of the health category, so no recommendation is ever built with one
of the three set and another unset. -/
theorem c10_restrictions_coupled (diabetes_status health_category : String) :
    (get_dietary_restrictions diabetes_status health_category).limit_sodium
        = (get_dietary_restrictions diabetes_status health_category).portion_control ∧
      (get_dietary_restrictions diabetes_status health_category).portion_control
        = (get_dietary_restrictions diabetes_status health_category).limit_saturated_fat :=
  ⟨rfl, rfl⟩

end KenyanNutrition
